import Mathlib

/-!
Verification of a book-management CRUD service.

The server side is a single request handler over an SQLite store:
module-load bootstrap (create table if absent, seed three rows when empty)
followed by a handler dispatching on method GET / PUT / DELETE with an
optional identifier token taken from the query. The client side is a React
page holding a list of books, a selection, an edit-mode flag, a string form
buffer and an error slot.

The embedding below models:
- JavaScript `Number` / `parseInt` on identifier tokens (signed decimal
  integer strings; any other token maps to NaN; the empty string maps to 0
  under `Number`). Non-integer numeric literals, hex and whitespace forms
  are outside the model; no claim depends on them.
- JavaScript truthiness of the parsed identifier (`null`, `NaN` and `0`
  are falsy) and of the PUT body fields (absent, the empty string and the
  number 0 are falsy).
- the SQLite table as a list of `Book` rows; `run` on UPDATE / DELETE
  reports `changes` as the number of matching rows.
- a store failure mode: `Store.fail = some msg` means every prepared
  statement throws an error carrying `msg`; the handler's try/catch
  converts this to a 500 response whose body is a fixed message.
-/

structure Book where
  id : Int
  title : String
  author : String
  year : Int
deriving Repr, DecidableEq

/-- Digit value of a character, `none` when it is not a decimal digit. -/
def digitVal (c : Char) : Option Nat :=
  if c.isDigit then some (c.toNat - 48) else none

/-- Value of a nonempty all-digit character list, `none` otherwise. -/
def parseDigits (cs : List Char) : Option Nat :=
  if cs.isEmpty then none
  else
    cs.foldl
      (fun acc c =>
        match acc, digitVal c with
        | some n, some d => some (n * 10 + d)
        | _, _ => none)
      (some 0)

/-- JavaScript `Number(s)` restricted to integer-valued tokens:
the empty string is 0, an optionally signed digit string is its value,
anything else is NaN (`none`). -/
def jsNumber (s : String) : Option Int :=
  match s.toList with
  | [] => some 0
  | '-' :: cs => (parseDigits cs).map (fun n => -(n : Int))
  | '+' :: cs => (parseDigits cs).map (fun n => (n : Int))
  | cs => (parseDigits cs).map (fun n => (n : Int))

/-- Longest leading digit run of a character list. -/
def takeDigits : List Char → List Char
  | [] => []
  | c :: cs => if c.isDigit then c :: takeDigits cs else []

/-- JavaScript `parseInt(s)`: optional sign then the longest digit prefix;
NaN (`none`) when no leading digits exist. -/
def jsParseInt (s : String) : Option Int :=
  match s.toList with
  | '-' :: cs => (parseDigits (takeDigits cs)).map (fun n => -(n : Int))
  | '+' :: cs => (parseDigits (takeDigits cs)).map (fun n => (n : Int))
  | cs => (parseDigits (takeDigits cs)).map (fun n => (n : Int))

/-- The handler's `id` value: `null` when `req.query.id` is absent,
otherwise `Number(token)` which is either NaN or a number. -/
inductive JsId where
  | null
  | nan
  | num (n : Int)
deriving Repr, DecidableEq

/-- JavaScript truthiness of the `id` value: `null`, NaN and 0 are falsy. -/
def JsId.truthy : JsId → Bool
  | .null => false
  | .nan => false
  | .num n => n != 0

/-- JavaScript `isNaN(id)` for `id : number | null`
(`isNaN(null)` is false since `Number(null) = 0`). -/
def JsId.isNaN : JsId → Bool
  | .nan => true
  | _ => false

/-- The numeric value bound into a prepared statement (only used on
branches where `id` is truthy, hence a nonzero number). -/
def JsId.val : JsId → Int
  | .num n => n
  | _ => 0

/-- `const id = req.query.id ? Number(req.query.id[0]) : null`. -/
def computeId : Option String → JsId
  | none => .null
  | some s =>
      match jsNumber s with
      | none => .nan
      | some n => .num n

/-- The guard `if (id && isNaN(id))` of the invalid-id branch, literally. -/
def idInvalid (i : JsId) : Bool := i.truthy && i.isNaN

/-- The PUT request body `{ title, author, year }`; `none` models an
absent (or JSON `null`) field. -/
structure PutBody where
  title : Option String
  author : Option String
  year : Option Int
deriving Repr, DecidableEq

/-- JavaScript truthiness of a string-typed body field. -/
def truthyStr : Option String → Bool
  | none => false
  | some s => s != ""

/-- JavaScript truthiness of a number-typed body field. -/
def truthyNum : Option Int → Bool
  | none => false
  | some n => n != 0

/-- An incoming request: method string, the identifier token extracted
from the request target by the routing layer (absent when no identifier
was supplied), and the parsed JSON body. -/
structure Request where
  method : String
  idToken : Option String
  body : PutBody
deriving Repr, DecidableEq

/-- The store: the `books` table rows, plus a failure mode. When
`fail = some msg` every prepared statement throws an error whose message
is `msg`; `none` is a healthy store. -/
structure Store where
  books : List Book
  fail : Option String
deriving Repr, DecidableEq

/-- `SELECT * FROM books WHERE id = ?` followed by `.get`. -/
def getById (bs : List Book) (i : Int) : Option Book :=
  bs.find? (fun b => b.id == i)

/-- `UPDATE books SET title = ?, author = ?, year = ? WHERE id = ?`:
the new rows and the reported `changes` count (number of matching rows). -/
def updateById (bs : List Book) (i : Int) (t a : String) (y : Int) :
    List Book × Nat :=
  (bs.map (fun b => if b.id == i then { b with title := t, author := a, year := y } else b),
   (bs.filter (fun b => b.id == i)).length)

/-- `DELETE FROM books WHERE id = ?`: the remaining rows and the reported
`changes` count (number of matching rows). -/
def deleteById (bs : List Book) (i : Int) : List Book × Nat :=
  (bs.filter (fun b => !(b.id == i)),
   (bs.filter (fun b => b.id == i)).length)

/-- Response bodies the handler can produce. -/
inductive RespBody where
  | errMsg (msg : String)
  | book (b : Book)
  | books (bs : List Book)
  | optBook (b : Option Book)
  | text (s : String)
  | empty
deriving Repr, DecidableEq

/-- A handler response: status code, body, and the `Allow` header
(set only on the 405 branch). -/
structure Response where
  status : Nat
  body : RespBody
  allow : Option (List String)
deriving Repr, DecidableEq

/-- The API route handler, returning the response and the store after the
request. Mirrors the source: compute `id`, the (dead) invalid-id guard,
then dispatch on the method with per-branch try/catch around store access. -/
def handler (st : Store) (req : Request) : Response × Store :=
  let i := computeId req.idToken
  if idInvalid i then
    ({ status := 400, body := .errMsg "Invalid ID format", allow := none }, st)
  else
    match req.method with
    | "GET" =>
        match st.fail with
        | some _ =>
            ({ status := 500, body := .errMsg "Failed to fetch books", allow := none }, st)
        | none =>
            if i.truthy then
              match getById st.books i.val with
              | none =>
                  ({ status := 404, body := .errMsg "Book not found", allow := none }, st)
              | some b =>
                  ({ status := 200, body := .book b, allow := none }, st)
            else
              ({ status := 200, body := .books st.books, allow := none }, st)
    | "PUT" =>
        if !i.truthy then
          ({ status := 400, body := .errMsg "Missing book ID", allow := none }, st)
        else if !(truthyStr req.body.title && truthyStr req.body.author
                   && truthyNum req.body.year) then
          ({ status := 400, body := .errMsg "Missing required fields", allow := none }, st)
        else
          match st.fail with
          | some _ =>
              ({ status := 500, body := .errMsg "Failed to update book", allow := none }, st)
          | none =>
              let r := updateById st.books i.val (req.body.title.getD "")
                         (req.body.author.getD "") (req.body.year.getD 0)
              if r.2 == 0 then
                ({ status := 404, body := .errMsg "Book not found", allow := none },
                 { st with books := r.1 })
              else
                ({ status := 200, body := .optBook (getById r.1 i.val), allow := none },
                 { st with books := r.1 })
    | "DELETE" =>
        if !i.truthy then
          ({ status := 400, body := .errMsg "Missing book ID", allow := none }, st)
        else
          match st.fail with
          | some _ =>
              ({ status := 500, body := .errMsg "Failed to delete book", allow := none }, st)
          | none =>
              let r := deleteById st.books i.val
              if r.2 == 0 then
                ({ status := 404, body := .errMsg "Book not found", allow := none },
                 { st with books := r.1 })
              else
                ({ status := 204, body := .empty, allow := none },
                 { st with books := r.1 })
    | m =>
        ({ status := 405, body := .text ("Method " ++ m ++ " Not Allowed"),
           allow := some ["GET", "PUT", "DELETE"] }, st)

/-- True exactly when the handler's dispatch for this request executes a
prepared statement (so a failing store raises an exception): every GET,
plus PUT / DELETE once their validation passes. -/
def storeReached (req : Request) : Bool :=
  match req.method with
  | "GET" => true
  | "PUT" =>
      (computeId req.idToken).truthy
        && (truthyStr req.body.title && truthyStr req.body.author
             && truthyNum req.body.year)
  | "DELETE" => (computeId req.idToken).truthy
  | _ => false

/-- The bootstrap-time database state: whether the `books` table exists,
its rows, and the next AUTOINCREMENT identity value. -/
structure DbState where
  tableExists : Bool
  books : List Book
  nextId : Int
deriving Repr, DecidableEq

/-- `CREATE TABLE IF NOT EXISTS books (...)`: a no-op when the table
already exists, never a failure. -/
def createBooksTable (s : DbState) : DbState :=
  if s.tableExists then s else { s with tableExists := true }

/-- `INSERT INTO books (title, author, year) VALUES (?, ?, ?)`: the store
assigns the next identity value. -/
def insertBook (s : DbState) (t a : String) (y : Int) : DbState :=
  { s with books := s.books ++ [{ id := s.nextId, title := t, author := a, year := y }],
           nextId := s.nextId + 1 }

/-- The three seed rows inserted when the table is empty. -/
def fakeBooks : List (String × String × Int) :=
  [("The Great Gatsby", "F. Scott Fitzgerald", 1925),
   ("1984", "George Orwell", 1949),
   ("To Kill a Mockingbird", "Harper Lee", 1960)]

/-- The module-initialization bootstrap: create the table if absent, count
the rows, and insert the seed rows only when the count is zero. -/
def bootstrap (s : DbState) : DbState :=
  let s1 := createBooksTable s
  if s1.books.length == 0 then
    fakeBooks.foldl (fun acc bk => insertBook acc bk.1 bk.2.1 bk.2.2) s1
  else s1

/-- A fresh database file: no table, no rows, identity counter at 1. -/
def emptyDb : DbState := { tableExists := false, books := [], nextId := 1 }

/-- The client form buffer: string-typed mirrors of the book fields. -/
structure FormData where
  title : String
  author : String
  year : String
deriving Repr, DecidableEq

/-- The client view state: the fetched list, the selection, the edit-mode
flag, the form buffer and the error slot. -/
structure ViewState where
  books : List Book
  selectedBook : Option Book
  editMode : Bool
  formData : FormData
  error : String
deriving Repr, DecidableEq

/-- A network request issued by the client controller. -/
inductive ApiCall where
  | fetchList
  | putBook (id : Int) (body : PutBody)
  | deleteBook (id : Int)
deriving Repr, DecidableEq

/-- Outcome of a `fetchBooks` round trip: whether the response was ok and
the list it carried. -/
structure FetchResult where
  ok : Bool
  data : List Book
deriving Repr, DecidableEq

/-- `fetchBooks`: on ok, replace the list and clear the error; on failure,
set the fetch error message and keep the list. -/
def applyFetch (v : ViewState) (r : FetchResult) : ViewState :=
  if r.ok then { v with books := r.data, error := "" }
  else { v with error := "Error fetching books" }

/-- `handleEdit(book)`: select the book, seed the form buffer from its
fields (year stringified), enter edit mode, clear the error. -/
def handleEdit (v : ViewState) (b : Book) : ViewState :=
  { v with selectedBook := some b,
           formData := { title := b.title, author := b.author, year := toString b.year },
           editMode := true,
           error := "" }

/-- The Cancel button: `onClick={() => setEditMode(false)}`. It issues no
network call, so the call list is empty. -/
def cancelEdit (v : ViewState) : ViewState × List ApiCall :=
  ({ v with editMode := false }, [])

/-- `handleUpdate`: with no selection, return immediately. Otherwise PUT
the form buffer (year through `parseInt`; a NaN year serializes as JSON
null, i.e. `none`) for the selected book's id. On ok: leave edit mode,
clear selection and error, then `fetchBooks`. On failure: set the update
error message and change nothing else. -/
def handleUpdate (v : ViewState) (putOk : Bool) (fr : FetchResult) :
    ViewState × List ApiCall :=
  match v.selectedBook with
  | none => (v, [])
  | some b =>
      let call := ApiCall.putBook b.id
        { title := some v.formData.title,
          author := some v.formData.author,
          year := jsParseInt v.formData.year }
      if putOk then
        (applyFetch { v with editMode := false, selectedBook := none, error := "" } fr,
         [call, .fetchList])
      else
        ({ v with error := "Error updating book" }, [call])

/-- `handleDelete(id)`: DELETE; on ok clear the error and `fetchBooks`,
on failure set the delete error message. -/
def handleDelete (v : ViewState) (i : Int) (delOk : Bool) (fr : FetchResult) :
    ViewState × List ApiCall :=
  if delOk then
    (applyFetch { v with error := "" } fr, [.deleteBook i, .fetchList])
  else
    ({ v with error := "Error deleting book" }, [.deleteBook i])

/-! ### Helper lemmas -/

/-- The guard `if (id && isNaN(id))` can never hold: a truthy id is a
nonzero number, and a nonzero number is not NaN. -/
theorem idInvalid_eq_false (i : JsId) : idInvalid i = false := by
  cases i <;> simp [idInvalid, JsId.truthy, JsId.isNaN]

theorem truthy_num_of_ne (n : Int) (hn : n ≠ 0) : (JsId.num n).truthy = true := by
  simp [JsId.truthy, hn]

theorem filter_id_eq_nil (bs : List Book) (n : Int) (h : ∀ b ∈ bs, b.id ≠ n) :
    bs.filter (fun b => b.id == n) = [] := by
  induction bs with
  | nil => rfl
  | cons b t ih =>
      have hb : (b.id == n) = false :=
        beq_eq_false_iff_ne.mpr (h b (List.mem_cons_self b t))
      rw [List.filter_cons, if_neg (by simp [hb])]
      exact ih fun x hx => h x (List.mem_cons_of_mem _ hx)

theorem filter_id_length_ne_zero (bs : List Book) (n : Int)
    (h : ∃ b ∈ bs, b.id = n) :
    (bs.filter (fun b => b.id == n)).length ≠ 0 := by
  obtain ⟨b, hb, he⟩ := h
  have hmem : b ∈ bs.filter (fun b => b.id == n) :=
    List.mem_filter.mpr ⟨hb, by simp [he]⟩
  intro hlen
  rw [List.length_eq_zero] at hlen
  rw [hlen] at hmem
  exact List.not_mem_nil b hmem

theorem update_map_no_match (bs : List Book) (n : Int) (t a : String) (y : Int)
    (h : ∀ b ∈ bs, b.id ≠ n) :
    (updateById bs n t a y).1 = bs := by
  unfold updateById
  simp only
  rw [List.map_congr_left, List.map_id']
  intro b hb
  simp [beq_eq_false_iff_ne.mpr (h b hb)]

theorem getById_update_found (bs : List Book) (n : Int) (t a : String) (y : Int)
    (h : ∃ b ∈ bs, b.id = n) :
    getById (updateById bs n t a y).1 n =
      some { id := n, title := t, author := a, year := y } := by
  induction bs with
  | nil => simp at h
  | cons b bt ih =>
      by_cases hb : b.id = n
      · simp [getById, updateById, List.find?, hb]
      · have hbf : (b.id == n) = false := beq_eq_false_iff_ne.mpr hb
        have hexists : ∃ x ∈ bt, x.id = n := by
          obtain ⟨x, hx, he⟩ := h
          rcases List.mem_cons.mp hx with rfl | hxt
          · exact absurd he hb
          · exact ⟨x, hxt, he⟩
        have := ih hexists
        simpa [getById, updateById, List.find?, hbf] using this

theorem delete_filter_no_match (bs : List Book) (n : Int)
    (h : ∀ b ∈ bs, b.id ≠ n) :
    (deleteById bs n).1 = bs := by
  unfold deleteById
  simp only
  induction bs with
  | nil => rfl
  | cons b t ih =>
      have hb : (b.id == n) = false :=
        beq_eq_false_iff_ne.mpr (h b (List.mem_cons_self b t))
      rw [List.filter_cons, if_pos (by simp [hb])]
      rw [ih fun x hx => h x (List.mem_cons_of_mem _ hx)]

theorem filter_id_singleton_of_nodup (bs : List Book) (n : Int) (b : Book)
    (hnd : (bs.map Book.id).Nodup) (hb : b ∈ bs) (he : b.id = n) :
    bs.filter (fun x => x.id == n) = [b] := by
  induction bs with
  | nil => simp at hb
  | cons c ct ih =>
      rw [List.map_cons, List.nodup_cons] at hnd
      rcases List.mem_cons.mp hb with rfl | hbt
      · rw [List.filter_cons, if_pos (by simp [he])]
        have hrest : ct.filter (fun x => x.id == n) = [] := by
          apply filter_id_eq_nil
          intro x hx hxe
          exact hnd.1 (by rw [he, ← hxe]; exact List.mem_map_of_mem Book.id hx)
        rw [hrest]
      · have hcne : c.id ≠ n := by
          intro hc
          apply hnd.1
          rw [hc, ← he]
          exact List.mem_map_of_mem Book.id hbt
        rw [List.filter_cons, if_neg (by simp [beq_eq_false_iff_ne.mpr hcne])]
        exact ih hnd.2 hbt

theorem filter_length_split (bs : List Book) (n : Int) :
    (bs.filter (fun b => !(b.id == n))).length
      + (bs.filter (fun b => b.id == n)).length = bs.length := by
  induction bs with
  | nil => rfl
  | cons b t ih =>
      by_cases hb : b.id = n
      · simp [List.filter_cons, hb, ← ih, Nat.add_assoc]
      · have hbf : (b.id == n) = false := beq_eq_false_iff_ne.mpr hb
        simp [List.filter_cons, hbf, ← ih, Nat.add_right_comm]

/-! ### Claim theorems -/

/-- C1: the spec claims a present but non-integer identifier token always
yields a 400 validation error with no store access, for every method. The
guard `if (id && isNaN(id))` that was written for this is dead code (NaN is
falsy), so on GET a NaN identifier falls through to the full-list branch:
the list query runs against the store and the handler answers 200 with the
full list. -/
theorem c1_nonInteger_id_guard_is_dead :
    (∀ i : JsId, idInvalid i = false) ∧
    handler { books := [{ id := 1, title := "A", author := "B", year := 2000 }], fail := none }
        { method := "GET", idToken := some "abc",
          body := { title := none, author := none, year := none } }
      = ({ status := 200,
           body := .books [{ id := 1, title := "A", author := "B", year := 2000 }],
           allow := none },
         { books := [{ id := 1, title := "A", author := "B", year := 2000 }], fail := none }) :=
  ⟨idInvalid_eq_false, by decide⟩

/-- A concrete editing-mode view state used to settle the cancel claim. -/
def editingState : ViewState :=
  { books := [{ id := 1, title := "The Great Gatsby", author := "F. Scott Fitzgerald", year := 1925 }],
    selectedBook := some { id := 1, title := "The Great Gatsby",
                           author := "F. Scott Fitzgerald", year := 1925 },
    editMode := true,
    formData := { title := "The Great Gatsby", author := "F. Scott Fitzgerald", year := "1925" },
    error := "" }

/-- C2 counterexample: the claim says cancel discards both the FormBuffer
contents and the current selection. On a concrete editing state the Cancel
handler (`setEditMode(false)` only) leaves the selection set and the buffer
filled, so the claimed post-state does not hold. -/
theorem c2_cancel_claim_counterexample :
    ¬ ((cancelEdit editingState).1.selectedBook = none ∧
       (cancelEdit editingState).1.formData = { title := "", author := "", year := "" }) := by
  decide

/-- C2 amended: from the Editing state, cancel clears only the edit-mode
flag (returning to Browsing) and issues no request to the store; the
FormBuffer contents, the selection, the list and the error slot are left
unchanged rather than cleared. -/
theorem c2_cancel_amended (v : ViewState) (h : v.editMode = true) :
    (cancelEdit v).1.editMode = false ∧
    (cancelEdit v).2 = [] ∧
    (cancelEdit v).1.selectedBook = v.selectedBook ∧
    (cancelEdit v).1.formData = v.formData ∧
    (cancelEdit v).1.books = v.books ∧
    (cancelEdit v).1.error = v.error := by
  simp [cancelEdit]

/-- C2 witness: the amended cancel behaviour at the concrete editing
state. -/
theorem c2_cancel_amended_witness :
    editingState.editMode = true ∧
    ((cancelEdit editingState).1.editMode = false ∧
     (cancelEdit editingState).2 = [] ∧
     (cancelEdit editingState).1.selectedBook = editingState.selectedBook ∧
     (cancelEdit editingState).1.formData = editingState.formData ∧
     (cancelEdit editingState).1.books = editingState.books ∧
     (cancelEdit editingState).1.error = editingState.error) :=
  ⟨rfl, c2_cancel_amended editingState rfl⟩

/-- C3: bootstrap is idempotent — running it twice from any state is the
same as running it once; from the empty store it leaves exactly the three
seed rows (with identities 1, 2, 3) and the second run changes nothing,
since `CREATE TABLE IF NOT EXISTS` is a no-op and the seed insert is
guarded by the zero-row count. -/
theorem c3_bootstrap_idempotent :
    (∀ s : DbState, bootstrap (bootstrap s) = bootstrap s) ∧
    bootstrap (bootstrap emptyDb) = bootstrap emptyDb ∧
    (bootstrap emptyDb).books =
      [{ id := 1, title := "The Great Gatsby", author := "F. Scott Fitzgerald", year := 1925 },
       { id := 2, title := "1984", author := "George Orwell", year := 1949 },
       { id := 3, title := "To Kill a Mockingbird", author := "Harper Lee", year := 1960 }] := by
  refine ⟨?_, by decide, by decide⟩
  intro s
  obtain ⟨te, bks, nid⟩ := s
  cases te <;> cases bks <;>
    simp [bootstrap, createBooksTable, insertBook, fakeBooks]

/-- C4: a PUT with a truthy identifier whose body has any of title, author
or year missing or falsy is answered 400 "Missing required fields" and the
store is returned unchanged — validation runs before any update statement. -/
theorem c4_put_missing_fields (st : Store) (req : Request)
    (hm : req.method = "PUT")
    (hid : (computeId req.idToken).truthy = true)
    (hb : (truthyStr req.body.title && truthyStr req.body.author
            && truthyNum req.body.year) = false) :
    handler st req =
      ({ status := 400, body := .errMsg "Missing required fields", allow := none }, st) := by
  simp [handler, idInvalid_eq_false, hm, hid, hb]

/-- A concrete store used by the PUT / DELETE witnesses. -/
def witnessStore : Store :=
  { books := [{ id := 1, title := "A", author := "B", year := 2000 },
              { id := 2, title := "C", author := "D", year := 2001 }],
    fail := none }

/-- C4 witness: a PUT for id 1 whose body lacks `year` is rejected with
400 and leaves the concrete store unchanged. -/
theorem c4_put_missing_fields_witness :
    ({ method := "PUT", idToken := some "1",
       body := { title := some "T", author := some "A", year := none } } : Request).method = "PUT" ∧
    (computeId (some "1")).truthy = true ∧
    (truthyStr (some "T") && truthyStr (some "A") && truthyNum none) = false ∧
    handler witnessStore
        { method := "PUT", idToken := some "1",
          body := { title := some "T", author := some "A", year := none } } =
      ({ status := 400, body := .errMsg "Missing required fields", allow := none },
       witnessStore) :=
  ⟨rfl, by decide, by decide,
   c4_put_missing_fields witnessStore
     { method := "PUT", idToken := some "1",
       body := { title := some "T", author := some "A", year := none } }
     rfl (by decide) (by decide)⟩

theorem updateById_no_match (bs : List Book) (n : Int) (t a : String) (y : Int)
    (h : ∀ b ∈ bs, b.id ≠ n) :
    updateById bs n t a y = (bs, 0) := by
  have h1 := update_map_no_match bs n t a y h
  have h2 : (bs.filter (fun b => b.id == n)).length = 0 := by
    rw [filter_id_eq_nil bs n h]; rfl
  unfold updateById at h1 ⊢
  simp only [Prod.mk.injEq]
  exact ⟨h1, h2⟩

theorem handler_put_healthy (st : Store) (req : Request) (n : Int)
    (hf : st.fail = none)
    (hm : req.method = "PUT")
    (hid : computeId req.idToken = .num n)
    (hn : n ≠ 0)
    (hb : (truthyStr req.body.title && truthyStr req.body.author
            && truthyNum req.body.year) = true) :
    handler st req =
      (if (updateById st.books n (req.body.title.getD "") (req.body.author.getD "")
            (req.body.year.getD 0)).2 == 0 then
         ({ status := 404, body := .errMsg "Book not found", allow := none },
          { st with books := (updateById st.books n (req.body.title.getD "")
              (req.body.author.getD "") (req.body.year.getD 0)).1 })
       else
         ({ status := 200,
            body := .optBook (getById (updateById st.books n (req.body.title.getD "")
              (req.body.author.getD "") (req.body.year.getD 0)).1 n),
            allow := none },
          { st with books := (updateById st.books n (req.body.title.getD "")
              (req.body.author.getD "") (req.body.year.getD 0)).1 })) := by
  simp [handler, idInvalid_eq_false, hm, hid, hf, hb, truthy_num_of_ne n hn,
    JsId.val, updateById, getById]

/-- C5: a PUT whose identifier token parses to a nonzero integer and whose
body is complete either hits no row — the adapter reports zero changes, the
handler answers 404 and the store is unchanged — or hits a row, in which
case it answers 200 with the re-fetched record whose fields equal the
submitted body values, and the store holds the updated rows. -/
theorem c5_put_valid_id (st : Store) (req : Request) (n : Int)
    (hf : st.fail = none)
    (hm : req.method = "PUT")
    (hid : computeId req.idToken = .num n)
    (hn : n ≠ 0)
    (hb : (truthyStr req.body.title && truthyStr req.body.author
            && truthyNum req.body.year) = true) :
    ((∀ b ∈ st.books, b.id ≠ n) →
       handler st req =
         ({ status := 404, body := .errMsg "Book not found", allow := none }, st)) ∧
    ((∃ b ∈ st.books, b.id = n) →
       (handler st req).1 =
         { status := 200,
           body := .optBook (some { id := n, title := req.body.title.getD "",
                                    author := req.body.author.getD "",
                                    year := req.body.year.getD 0 }),
           allow := none } ∧
       (handler st req).2.books =
         (updateById st.books n (req.body.title.getD "") (req.body.author.getD "")
           (req.body.year.getD 0)).1) := by
  constructor
  · intro hno
    rw [handler_put_healthy st req n hf hm hid hn hb,
        updateById_no_match st.books n _ _ _ hno]
    simp
  · intro hyes
    obtain ⟨b0, hb0, he0⟩ := hyes
    rw [handler_put_healthy st req n hf hm hid hn hb]
    have hch : ((updateById st.books n (req.body.title.getD "") (req.body.author.getD "")
        (req.body.year.getD 0)).2 == 0) = false := by
      have := filter_id_length_ne_zero st.books n ⟨b0, hb0, he0⟩
      simpa [updateById] using this
    rw [if_neg (by simp [hch])]
    constructor
    · show Response.mk 200 (.optBook (getById _ n)) none = _
      rw [getById_update_found st.books n _ _ _ ⟨b0, hb0, he0⟩]
    · rfl

/-- A concrete complete-body PUT request for id 2, used by the C5 witness. -/
def putReq : Request :=
  { method := "PUT", idToken := some "2",
    body := { title := some "Animal Farm", author := some "George Orwell", year := some 1945 } }

/-- C5 witness: the PUT contract at a concrete store and request; id 2
exists, so the existing-row branch applies. -/
theorem c5_put_valid_id_witness :
    witnessStore.fail = none ∧
    putReq.method = "PUT" ∧
    computeId putReq.idToken = .num 2 ∧
    (2 : Int) ≠ 0 ∧
    (truthyStr putReq.body.title && truthyStr putReq.body.author
      && truthyNum putReq.body.year) = true ∧
    (((∀ b ∈ witnessStore.books, b.id ≠ (2 : Int)) →
        handler witnessStore putReq =
          ({ status := 404, body := .errMsg "Book not found", allow := none }, witnessStore)) ∧
     ((∃ b ∈ witnessStore.books, b.id = (2 : Int)) →
        (handler witnessStore putReq).1 =
          { status := 200,
            body := .optBook (some { id := 2, title := putReq.body.title.getD "",
                                     author := putReq.body.author.getD "",
                                     year := putReq.body.year.getD 0 }),
            allow := none } ∧
        (handler witnessStore putReq).2.books =
          (updateById witnessStore.books 2 (putReq.body.title.getD "")
            (putReq.body.author.getD "") (putReq.body.year.getD 0)).1)) :=
  ⟨rfl, rfl, by decide, by decide, by decide,
   c5_put_valid_id witnessStore putReq 2 rfl rfl (by decide) (by decide) (by decide)⟩

theorem deleteById_no_match (bs : List Book) (n : Int)
    (h : ∀ b ∈ bs, b.id ≠ n) :
    deleteById bs n = (bs, 0) := by
  have h1 := delete_filter_no_match bs n h
  have h2 : (bs.filter (fun b => b.id == n)).length = 0 := by
    rw [filter_id_eq_nil bs n h]; rfl
  unfold deleteById at h1 ⊢
  simp only [Prod.mk.injEq]
  exact ⟨h1, h2⟩

theorem handler_delete_healthy (st : Store) (req : Request) (n : Int)
    (hf : st.fail = none)
    (hm : req.method = "DELETE")
    (hid : computeId req.idToken = .num n)
    (hn : n ≠ 0) :
    handler st req =
      (if (deleteById st.books n).2 == 0 then
         ({ status := 404, body := .errMsg "Book not found", allow := none },
          { st with books := (deleteById st.books n).1 })
       else
         ({ status := 204, body := .empty, allow := none },
          { st with books := (deleteById st.books n).1 })) := by
  simp [handler, idInvalid_eq_false, hm, hid, hf, truthy_num_of_ne n hn,
    JsId.val, deleteById]

/-- C6: a DELETE whose identifier token parses to a nonzero integer, over
a store whose rows have pairwise distinct ids: when no row has that id the
adapter reports zero changes, the handler answers 404 and the store is
unchanged; when a row has it, the handler answers 204 with no content and
exactly that row is removed — every other row survives and the row count
drops by one. -/
theorem c6_delete_valid_id (st : Store) (req : Request) (n : Int)
    (hf : st.fail = none)
    (hm : req.method = "DELETE")
    (hid : computeId req.idToken = .num n)
    (hn : n ≠ 0)
    (hnd : (st.books.map Book.id).Nodup) :
    (getById st.books n = none →
       handler st req =
         ({ status := 404, body := .errMsg "Book not found", allow := none }, st)) ∧
    (∀ b, getById st.books n = some b →
       (handler st req).1 = { status := 204, body := .empty, allow := none } ∧
       (handler st req).2.books = st.books.filter (fun x => !(x.id == n)) ∧
       b ∉ (handler st req).2.books ∧
       (∀ x ∈ st.books, x.id ≠ n → x ∈ (handler st req).2.books) ∧
       (handler st req).2.books.length + 1 = st.books.length) := by
  constructor
  · intro hnone
    have hno : ∀ b ∈ st.books, b.id ≠ n := by
      intro b hb
      have := List.find?_eq_none.mp hnone b hb
      simpa using this
    rw [handler_delete_healthy st req n hf hm hid hn,
        deleteById_no_match st.books n hno]
    simp
  · intro b hb
    have hbmem := List.mem_of_find?_eq_some hb
    have hbid : b.id = n := by
      have := List.find?_some hb
      simpa using this
    have hsing := filter_id_singleton_of_nodup st.books n b hnd hbmem hbid
    have hch : ((deleteById st.books n).2 == 0) = false := by
      simp [deleteById, hsing]
    rw [handler_delete_healthy st req n hf hm hid hn]
    rw [if_neg (by simp [hch])]
    refine ⟨rfl, rfl, ?_, ?_, ?_⟩
    · intro hmem
      have := (List.mem_filter.mp hmem).2
      simp [hbid] at this
    · intro x hx hxne
      exact List.mem_filter.mpr ⟨hx, by simp [beq_eq_false_iff_ne.mpr hxne]⟩
    · have hsplit := filter_length_split st.books n
      rw [hsing] at hsplit
      simpa using hsplit

/-- A concrete DELETE request for id 1, used by the C6 witness. -/
def deleteReq : Request :=
  { method := "DELETE", idToken := some "1",
    body := { title := none, author := none, year := none } }

/-- C6 witness: the DELETE contract at the concrete two-row store; id 1
exists, so the existing-row branch applies. -/
theorem c6_delete_valid_id_witness :
    witnessStore.fail = none ∧
    deleteReq.method = "DELETE" ∧
    computeId deleteReq.idToken = .num 1 ∧
    (1 : Int) ≠ 0 ∧
    (witnessStore.books.map Book.id).Nodup ∧
    getById witnessStore.books 1 =
      some { id := 1, title := "A", author := "B", year := 2000 } ∧
    ((handler witnessStore deleteReq).1 = { status := 204, body := .empty, allow := none } ∧
     (handler witnessStore deleteReq).2.books =
       witnessStore.books.filter (fun x => !(x.id == (1 : Int))) ∧
     ({ id := 1, title := "A", author := "B", year := 2000 } : Book)
       ∉ (handler witnessStore deleteReq).2.books ∧
     (∀ x ∈ witnessStore.books, x.id ≠ (1 : Int) →
        x ∈ (handler witnessStore deleteReq).2.books) ∧
     (handler witnessStore deleteReq).2.books.length + 1 = witnessStore.books.length) :=
  ⟨rfl, rfl, by decide, by decide, by decide, by decide,
   (c6_delete_valid_id witnessStore deleteReq 1 rfl rfl (by decide) (by decide)
       (by decide)).2
     { id := 1, title := "A", author := "B", year := 2000 } (by decide)⟩

/-- C7: on a healthy store, a GET without identifier token is answered 200
with the full list and leaves the store unchanged; a GET whose token parses
to a nonzero integer is answered 200 with the single matching record, or
404 when no record has that id. -/
theorem c7_get_dispatch (st : Store) (req : Request)
    (hf : st.fail = none)
    (hm : req.method = "GET") :
    (req.idToken = none →
       handler st req = ({ status := 200, body := .books st.books, allow := none }, st)) ∧
    (∀ n : Int, n ≠ 0 → computeId req.idToken = .num n →
       (getById st.books n = none →
          handler st req =
            ({ status := 404, body := .errMsg "Book not found", allow := none }, st)) ∧
       (∀ b, getById st.books n = some b →
          handler st req = ({ status := 200, body := .book b, allow := none }, st))) := by
  constructor
  · intro ht
    simp [handler, idInvalid_eq_false, hm, hf, ht, computeId, JsId.truthy]
  · intro n hn hid
    constructor
    · intro hnone
      simp [handler, idInvalid_eq_false, hm, hf, hid, truthy_num_of_ne n hn,
        JsId.val, hnone]
    · intro b hsome
      simp [handler, idInvalid_eq_false, hm, hf, hid, truthy_num_of_ne n hn,
        JsId.val, hsome]

/-- C7 witness: both GET shapes at the concrete two-row store — the
list request and the single-record request for id 2. -/
theorem c7_get_dispatch_witness :
    witnessStore.fail = none ∧
    handler witnessStore
        { method := "GET", idToken := none,
          body := { title := none, author := none, year := none } } =
      ({ status := 200, body := .books witnessStore.books, allow := none }, witnessStore) ∧
    handler witnessStore
        { method := "GET", idToken := some "2",
          body := { title := none, author := none, year := none } } =
      ({ status := 200, body := .book { id := 2, title := "C", author := "D", year := 2001 },
         allow := none }, witnessStore) :=
  ⟨rfl,
   (c7_get_dispatch witnessStore
       { method := "GET", idToken := none,
         body := { title := none, author := none, year := none } } rfl rfl).1 rfl,
   ((c7_get_dispatch witnessStore
       { method := "GET", idToken := some "2",
         body := { title := none, author := none, year := none } } rfl rfl).2
     2 (by decide) (by decide)).2
     { id := 2, title := "C", author := "D", year := 2001 } (by decide)⟩

/-- The PUT call `handleUpdate` sends: the form buffer with the year run
back through `parseInt`, targeted at the selected book's identifier. -/
def submittedCall (v : ViewState) (b : Book) : ApiCall :=
  .putBook b.id
    { title := some v.formData.title,
      author := some v.formData.author,
      year := jsParseInt v.formData.year }

/-- C8: from the Editing state with a selected book, submit sends the form
buffer (year parsed back to an integer) as a PUT for that book's id. On
success it leaves edit mode, clears the selection, and issues the list
re-fetch whose result — never the local buffer — becomes the new list (on
fetch failure the old list stays). On failure it stays in Editing with the
buffer intact and only the error message set. -/
theorem c8_submit_transition (v : ViewState) (b : Book) (putOk : Bool) (fr : FetchResult)
    (he : v.editMode = true)
    (hs : v.selectedBook = some b) :
    (handleUpdate v putOk fr).2.head? = some (submittedCall v b) ∧
    (putOk = true →
       (handleUpdate v putOk fr).1.editMode = false ∧
       (handleUpdate v putOk fr).1.selectedBook = none ∧
       (handleUpdate v putOk fr).2 = [submittedCall v b, .fetchList] ∧
       (handleUpdate v putOk fr).1.formData = v.formData ∧
       (fr.ok = true →
          (handleUpdate v putOk fr).1.books = fr.data ∧
          (handleUpdate v putOk fr).1.error = "") ∧
       (fr.ok = false →
          (handleUpdate v putOk fr).1.books = v.books)) ∧
    (putOk = false →
       (handleUpdate v putOk fr).1 = { v with error := "Error updating book" } ∧
       (handleUpdate v putOk fr).2 = [submittedCall v b]) := by
  cases putOk <;> cases hok : fr.ok <;>
    simp [handleUpdate, hs, applyFetch, submittedCall, hok]

/-- A concrete fetch result used by the C8 witness. -/
def refetchedList : FetchResult :=
  { ok := true,
    data := [{ id := 1, title := "The Great Gatsby", author := "F. Scott Fitzgerald", year := 2000 }] }

/-- C8 witness: the submit transition at the concrete editing state with a
successful PUT and a successful re-fetch. -/
theorem c8_submit_transition_witness :
    editingState.editMode = true ∧
    editingState.selectedBook =
      some { id := 1, title := "The Great Gatsby", author := "F. Scott Fitzgerald", year := 1925 } ∧
    (handleUpdate editingState true refetchedList).2.head? =
      some (submittedCall editingState
        { id := 1, title := "The Great Gatsby", author := "F. Scott Fitzgerald", year := 1925 }) ∧
    (handleUpdate editingState true refetchedList).1.editMode = false ∧
    (handleUpdate editingState true refetchedList).1.selectedBook = none ∧
    (handleUpdate editingState true refetchedList).1.books = refetchedList.data := by
  have h := c8_submit_transition editingState
    { id := 1, title := "The Great Gatsby", author := "F. Scott Fitzgerald", year := 1925 }
    true refetchedList rfl rfl
  exact ⟨rfl, rfl, h.1, (h.2.1 rfl).1, (h.2.1 rfl).2.1, ((h.2.1 rfl).2.2.2.2.1 rfl).1⟩

/-- The response the handler produces when every prepared statement
throws: validation still runs first, and each store-touching branch ends
in its catch clause's fixed 500 body. Stated as a derived form to make
explicit that the response carries nothing from the thrown error. -/
def failResponse (req : Request) : Response :=
  match req.method with
  | "GET" => { status := 500, body := .errMsg "Failed to fetch books", allow := none }
  | "PUT" =>
      if !(computeId req.idToken).truthy then
        { status := 400, body := .errMsg "Missing book ID", allow := none }
      else if !(truthyStr req.body.title && truthyStr req.body.author
                 && truthyNum req.body.year) then
        { status := 400, body := .errMsg "Missing required fields", allow := none }
      else
        { status := 500, body := .errMsg "Failed to update book", allow := none }
  | "DELETE" =>
      if !(computeId req.idToken).truthy then
        { status := 400, body := .errMsg "Missing book ID", allow := none }
      else
        { status := 500, body := .errMsg "Failed to delete book", allow := none }
  | m =>
      { status := 405, body := .text ("Method " ++ m ++ " Not Allowed"),
        allow := some ["GET", "PUT", "DELETE"] }

theorem handler_fail (bs : List Book) (m : String) (req : Request) :
    handler { books := bs, fail := some m } req =
      (failResponse req, { books := bs, fail := some m }) := by
  by_cases h1 : req.method = "GET"
  · simp [handler, failResponse, idInvalid_eq_false, h1]
  · by_cases h2 : req.method = "PUT"
    · simp [handler, failResponse, idInvalid_eq_false, h2]
      split <;> simp_all
      split <;> simp_all
    · by_cases h3 : req.method = "DELETE"
      · simp [handler, failResponse, idInvalid_eq_false, h3]
        split <;> simp_all
      · simp [handler, failResponse, idInvalid_eq_false, h1, h2, h3]

/-- C9: when the store layer throws, the response is entirely independent
of the thrown error message (so no raw storage detail can reach the
caller), the rows are untouched, and every request that actually reaches a
prepared statement is answered 500 with one of the three fixed generic
bodies. -/
theorem c9_store_exception_masked (bs : List Book) (m1 m2 : String) (req : Request) :
    (handler { books := bs, fail := some m1 } req).1
        = (handler { books := bs, fail := some m2 } req).1 ∧
    (handler { books := bs, fail := some m1 } req).2.books = bs ∧
    (storeReached req = true →
       (handler { books := bs, fail := some m1 } req).1.status = 500 ∧
       ((handler { books := bs, fail := some m1 } req).1.body
            = .errMsg "Failed to fetch books" ∨
        (handler { books := bs, fail := some m1 } req).1.body
            = .errMsg "Failed to update book" ∨
        (handler { books := bs, fail := some m1 } req).1.body
            = .errMsg "Failed to delete book")) := by
  refine ⟨by rw [handler_fail, handler_fail], by rw [handler_fail], ?_⟩
  intro hsr
  rw [handler_fail]
  unfold storeReached at hsr
  by_cases h1 : req.method = "GET"
  · simp [failResponse, h1]
  · by_cases h2 : req.method = "PUT"
    · simp [h2] at hsr
      simp [failResponse, h2, hsr.1, hsr.2.1, hsr.2.2]
    · by_cases h3 : req.method = "DELETE"
      · simp [h3] at hsr
        simp [failResponse, h3, hsr]
      · simp [h1, h2, h3] at hsr

/-- C10: an identifier token that parses to 0 is falsy, so the handler
treats it exactly like an absent identifier: a healthy-store GET answers
200 with the full list (not 404), and PUT / DELETE answer the
missing-identifier 400 without any store access, leaving the store
untouched. -/
theorem c10_zero_id_like_absent (st : Store) (req : Request) (tok : String)
    (htok : req.idToken = some tok)
    (hz : jsNumber tok = some 0) :
    (req.method = "GET" → st.fail = none →
       handler st req = ({ status := 200, body := .books st.books, allow := none }, st)) ∧
    (req.method = "PUT" →
       handler st req =
         ({ status := 400, body := .errMsg "Missing book ID", allow := none }, st)) ∧
    (req.method = "DELETE" →
       handler st req =
         ({ status := 400, body := .errMsg "Missing book ID", allow := none }, st)) := by
  have hc : computeId req.idToken = .num 0 := by simp [computeId, htok, hz]
  refine ⟨?_, ?_, ?_⟩
  · intro hm hf
    simp [handler, idInvalid_eq_false, hm, hf, hc, JsId.truthy]
  · intro hm
    simp [handler, idInvalid_eq_false, hm, hc, JsId.truthy]
  · intro hm
    simp [handler, idInvalid_eq_false, hm, hc, JsId.truthy]

/-- C10 witness: the token "0" at the concrete two-row store, once for
each method. -/
theorem c10_zero_id_like_absent_witness :
    (({ method := "GET", idToken := some "0",
        body := { title := none, author := none, year := none } } : Request).idToken
      = some "0") ∧
    jsNumber "0" = some 0 ∧
    handler witnessStore
        { method := "GET", idToken := some "0",
          body := { title := none, author := none, year := none } } =
      ({ status := 200, body := .books witnessStore.books, allow := none }, witnessStore) ∧
    handler witnessStore
        { method := "PUT", idToken := some "0",
          body := { title := none, author := none, year := none } } =
      ({ status := 400, body := .errMsg "Missing book ID", allow := none }, witnessStore) ∧
    handler witnessStore
        { method := "DELETE", idToken := some "0",
          body := { title := none, author := none, year := none } } =
      ({ status := 400, body := .errMsg "Missing book ID", allow := none }, witnessStore) :=
  ⟨rfl, by decide,
   (c10_zero_id_like_absent witnessStore
       { method := "GET", idToken := some "0",
         body := { title := none, author := none, year := none } } "0" rfl (by decide)).1
     rfl rfl,
   (c10_zero_id_like_absent witnessStore
       { method := "PUT", idToken := some "0",
         body := { title := none, author := none, year := none } } "0" rfl (by decide)).2.1
     rfl,
   (c10_zero_id_like_absent witnessStore
       { method := "DELETE", idToken := some "0",
         body := { title := none, author := none, year := none } } "0" rfl (by decide)).2.2
     rfl⟩
